import Mathlib

/-!
A shallow embedding of the regex-colour rule engine of `src/color/regex.c`
(NeoMutt's regex colour lists): the `RegexColor` data model, the per-class
rule lists, the lookup-or-update algorithm `add_pattern`, the registry
dispatch `regex_colors_get_list`, clearing, and the two parse entry points.

External collaborators (the regex engine, the pattern compiler, the simple
search expansion) are modelled as an explicit environment of oracle
functions; the curses colour allocator is modelled by the (fg, bg) pair it
resolves.
-/

set_option autoImplicit false

namespace RegexColour

/-- Result of a colour command, from `enum CommandResult`. -/
inductive CommandResult where
  | MUTT_CMD_ERROR
  | MUTT_CMD_WARNING
  | MUTT_CMD_SUCCESS
  | MUTT_CMD_FINISH
deriving DecidableEq

/-- Integer value of a `CommandResult`, as the C enum defines it. -/
def CommandResult.toInt : CommandResult → Int
  | .MUTT_CMD_ERROR => -1
  | .MUTT_CMD_WARNING => -2
  | .MUTT_CMD_SUCCESS => 0
  | .MUTT_CMD_FINISH => 1

/-- The colour identifiers dispatched on in `regex.c`: the nine rule classes
plus representative identifiers outside them (`enum ColorId` has more
members; the ones below suffice for the dispatch in this file, which sends
every identifier outside the nine classes to its `default` branch). -/
inductive ColorId where
  | MT_COLOR_ATTACH_HEADERS
  | MT_COLOR_BODY
  | MT_COLOR_HEADER
  | MT_COLOR_INDEX
  | MT_COLOR_INDEX_AUTHOR
  | MT_COLOR_INDEX_FLAGS
  | MT_COLOR_INDEX_SUBJECT
  | MT_COLOR_INDEX_TAG
  | MT_COLOR_STATUS
  | MT_COLOR_NORMAL
  | MT_COLOR_QUOTED
  | MT_COLOR_SIGNATURE
deriving DecidableEq

/-- A curses colour handle: the resolved (foreground, background) pair.
`curses_color_new(fg, bg)` is modelled as resolving exactly this pair. -/
structure CursesColor where
  fg : Nat
  bg : Nat
deriving DecidableEq

/-- An attribute colour: an optional curses colour handle plus the style
bitmask, from `struct AttrColor`. -/
structure AttrColor where
  curses_color : Option CursesColor
  attrs : Int
deriving DecidableEq

/-- One rule, from `struct RegexColor`.  The compiled regex is modelled by
the pattern text and flags it was compiled with; the compiled pattern tree
of an index rule is modelled by the opaque tree identifier returned by the
pattern compiler. -/
structure RegexColor where
  pattern : String
  regex : Option (String × Nat)
  color_pattern : Option Nat
  attr_color : AttrColor
  matchn : Nat
  stop_matching : Bool
deriving DecidableEq

/-- A rule list, `struct RegexColorList` (an STAILQ), as a Lean list in
traversal order. -/
abbrev RegexColorList := List RegexColor

/-- The nine process-wide rule lists of `regex.c`. -/
structure RegexColors where
  AttachList : RegexColorList
  BodyList : RegexColorList
  HeaderList : RegexColorList
  IndexAuthorList : RegexColorList
  IndexFlagsList : RegexColorList
  IndexList : RegexColorList
  IndexSubjectList : RegexColorList
  IndexTagList : RegexColorList
  StatusList : RegexColorList
deriving DecidableEq

/-- The external capabilities `add_pattern` calls out to: the simple-search
expansion `mutt_check_simple`, the pattern compiler `mutt_pattern_comp`
(returns an opaque tree identifier, or none on a compile error), and the
regex compiler `REG_COMP` (true when compilation of the pattern with the
given flags succeeds). -/
structure Env where
  mutt_check_simple : String → String
  mutt_pattern_comp : String → Option Nat
  reg_comp : String → Nat → Bool

/-- The `REG_ICASE` regex flag. -/
def REG_ICASE : Nat := 2

/-- Case-sensitive string equality, `mutt_str_equal`. -/
def mutt_str_equal (a b : String) : Bool := a == b

/-- Case-insensitive string equality, `mutt_istr_equal` (ASCII case fold,
character by character). -/
def mutt_istr_equal (a b : String) : Bool :=
  a.toList.map Char.toLower == b.toList.map Char.toLower

/-- Modelled from the spec: `mutt_mb_is_lower` (from `mutt/mbyte.c`, not part
of the given sources) — true when the pattern is entirely lowercase, i.e.
contains no uppercase character. -/
def mutt_mb_is_lower (s : String) : Bool := s.toList.all fun c => !c.isUpper

/-- The dedup-scan condition of `add_pattern` (lines 216-217): does the new
pattern `s` equal the rule's stored pattern under the case policy? -/
def rcol_matches (sensitive : Bool) (s : String) (rcol : RegexColor) : Bool :=
  (sensitive && mutt_str_equal s rcol.pattern) ||
    (!sensitive && mutt_istr_equal s rcol.pattern)

/-- Pattern equality under a case policy (the same relation as
`rcol_matches`, on bare strings). -/
def patterns_equal (sensitive : Bool) (a b : String) : Bool :=
  if sensitive then mutt_str_equal a b else mutt_istr_equal a b

/-- The regex flags derived in `add_pattern` (lines 263-267): a
case-sensitive caller still gets `REG_ICASE` when the pattern is entirely
lowercase; a case-insensitive caller always gets `REG_ICASE`. -/
def regex_flags (sensitive : Bool) (s : String) : Nat :=
  if sensitive then (if mutt_mb_is_lower s then REG_ICASE else 0) else REG_ICASE

/-- The update applied to a found rule's attribute colour (lines 226-238):
when a curses colour handle exists and its (fg, bg) differ from the request,
the old attribute colour is cleared and a new handle resolved; the style
bitmask is always overwritten. -/
def update_attr_color (fg bg : Nat) (attrs : Int) (ac : AttrColor) : AttrColor :=
  match ac.curses_color with
  | some cc =>
      if cc.fg ≠ fg ∨ cc.bg ≠ bg then
        { curses_color := some { fg := fg, bg := bg }, attrs := attrs }
      else
        { ac with attrs := attrs }
  | none => { ac with attrs := attrs }

/-- Replace the first element satisfying `p` by its image under `f`
(the in-place update of the found STAILQ node). -/
def update_first (p : RegexColor → Bool) (f : RegexColor → RegexColor) :
    RegexColorList → RegexColorList
  | [] => []
  | r :: rs => if p r then f r :: rs else r :: update_first p f rs

/-- The rule freshly built by the insert path of `add_pattern` (lines
243-282), assuming compilation succeeded: pattern copy, compiled matcher
(pattern tree for an index class, regex with derived flags otherwise),
submatch index, and a newly resolved attribute colour. -/
def fresh_rule (env : Env) (s : String) (sensitive : Bool) (fg bg : Nat)
    (attrs : Int) (is_index : Bool) (matchn : Nat) : RegexColor :=
  if is_index then
    { pattern := s, regex := none,
      color_pattern := env.mutt_pattern_comp (env.mutt_check_simple s),
      attr_color := { curses_color := some { fg := fg, bg := bg }, attrs := attrs },
      matchn := matchn, stop_matching := false }
  else
    { pattern := s, regex := some (s, regex_flags sensitive s),
      color_pattern := none,
      attr_color := { curses_color := some { fg := fg, bg := bg }, attrs := attrs },
      matchn := matchn, stop_matching := false }

/-- `add_pattern` (lines 208-295): look up the pattern in the list under the
case policy; update the found rule in place, or compile and append a fresh
rule; on an index class, notify `MT_COLOR_INDEX` on success.  Returns the
command result, the new list, and the notifications sent. -/
def add_pattern (env : Env) (rcl : RegexColorList) (s : String) (sensitive : Bool)
    (fg bg : Nat) (attrs : Int) (is_index : Bool) (matchn : Nat) :
    CommandResult × RegexColorList × List ColorId :=
  if rcl.any (rcol_matches sensitive s) then
    let rcl' := update_first (rcol_matches sensitive s)
      (fun r => { r with attr_color := update_attr_color fg bg attrs r.attr_color }) rcl
    (.MUTT_CMD_SUCCESS, rcl', if is_index then [.MT_COLOR_INDEX] else [])
  else if is_index then
    match env.mutt_pattern_comp (env.mutt_check_simple s) with
    | none => (.MUTT_CMD_ERROR, rcl, [])
    | some _ =>
        (.MUTT_CMD_SUCCESS, rcl ++ [fresh_rule env s sensitive fg bg attrs true matchn],
          [.MT_COLOR_INDEX])
  else
    if env.reg_comp s (regex_flags sensitive s) then
      (.MUTT_CMD_SUCCESS, rcl ++ [fresh_rule env s sensitive fg bg attrs false matchn], [])
    else
      (.MUTT_CMD_ERROR, rcl, [])

/-- `regex_color_list_clear` (lines 147-158): remove and free every rule. -/
def regex_color_list_clear (_rcl : RegexColorList) : RegexColorList := []

/-- `regex_colors_clear` (lines 78-90): clear all nine lists. -/
def regex_colors_clear (st : RegexColors) : RegexColors :=
  { AttachList := regex_color_list_clear st.AttachList,
    BodyList := regex_color_list_clear st.BodyList,
    HeaderList := regex_color_list_clear st.HeaderList,
    IndexList := regex_color_list_clear st.IndexList,
    IndexAuthorList := regex_color_list_clear st.IndexAuthorList,
    IndexFlagsList := regex_color_list_clear st.IndexFlagsList,
    IndexSubjectList := regex_color_list_clear st.IndexSubjectList,
    IndexTagList := regex_color_list_clear st.IndexTagList,
    StatusList := regex_color_list_clear st.StatusList }

/-- `regex_colors_init` (lines 61-73): all nine lists start empty. -/
def regex_colors_init : RegexColors :=
  { AttachList := [], BodyList := [], HeaderList := [], IndexAuthorList := [],
    IndexFlagsList := [], IndexList := [], IndexSubjectList := [],
    IndexTagList := [], StatusList := [] }

/-- `regex_colors_get_list` (lines 165-190): the list for a colour id, or
none for any identifier outside the nine classes. -/
def regex_colors_get_list (st : RegexColors) (id : ColorId) : Option RegexColorList :=
  match id with
  | .MT_COLOR_ATTACH_HEADERS => some st.AttachList
  | .MT_COLOR_BODY => some st.BodyList
  | .MT_COLOR_HEADER => some st.HeaderList
  | .MT_COLOR_INDEX => some st.IndexList
  | .MT_COLOR_INDEX_AUTHOR => some st.IndexAuthorList
  | .MT_COLOR_INDEX_FLAGS => some st.IndexFlagsList
  | .MT_COLOR_INDEX_SUBJECT => some st.IndexSubjectList
  | .MT_COLOR_INDEX_TAG => some st.IndexTagList
  | .MT_COLOR_STATUS => some st.StatusList
  | _ => none

/-- `regex_colors_parse_color_list` (lines 310-346): dispatch a 'color'
command to the class's list with its case policy and index flag.  Returns
(parsed?, command result when parsed, new state, notifications). -/
def regex_colors_parse_color_list (env : Env) (st : RegexColors) (color : ColorId)
    (pat : String) (fg bg : Nat) (attrs : Int) :
    Bool × Option CommandResult × RegexColors × List ColorId :=
  match color with
  | .MT_COLOR_ATTACH_HEADERS =>
      let r := add_pattern env st.AttachList pat true fg bg attrs false 0
      (true, some r.1, { st with AttachList := r.2.1 }, r.2.2)
  | .MT_COLOR_BODY =>
      let r := add_pattern env st.BodyList pat true fg bg attrs false 0
      (true, some r.1, { st with BodyList := r.2.1 }, r.2.2)
  | .MT_COLOR_HEADER =>
      let r := add_pattern env st.HeaderList pat false fg bg attrs false 0
      (true, some r.1, { st with HeaderList := r.2.1 }, r.2.2)
  | .MT_COLOR_INDEX =>
      let r := add_pattern env st.IndexList pat true fg bg attrs true 0
      (true, some r.1, { st with IndexList := r.2.1 }, r.2.2)
  | .MT_COLOR_INDEX_AUTHOR =>
      let r := add_pattern env st.IndexAuthorList pat true fg bg attrs true 0
      (true, some r.1, { st with IndexAuthorList := r.2.1 }, r.2.2)
  | .MT_COLOR_INDEX_FLAGS =>
      let r := add_pattern env st.IndexFlagsList pat true fg bg attrs true 0
      (true, some r.1, { st with IndexFlagsList := r.2.1 }, r.2.2)
  | .MT_COLOR_INDEX_SUBJECT =>
      let r := add_pattern env st.IndexSubjectList pat true fg bg attrs true 0
      (true, some r.1, { st with IndexSubjectList := r.2.1 }, r.2.2)
  | .MT_COLOR_INDEX_TAG =>
      let r := add_pattern env st.IndexTagList pat true fg bg attrs true 0
      (true, some r.1, { st with IndexTagList := r.2.1 }, r.2.2)
  | _ => (false, none, st, [])

/-- `regex_colors_parse_status_list` (lines 359-368): only
`MT_COLOR_STATUS` is accepted (else -1); forwards the submatch index. -/
def regex_colors_parse_status_list (env : Env) (st : RegexColors) (color : ColorId)
    (pat : String) (fg bg : Nat) (attrs : Int) (matchn : Nat) :
    Int × RegexColors × List ColorId :=
  if color ≠ ColorId.MT_COLOR_STATUS then
    (-1, st, [])
  else
    let r := add_pattern env st.StatusList pat true fg bg attrs false matchn
    (r.1.toInt, { st with StatusList := r.2.1 }, r.2.2)

/-- Pairwise distinctness of the stored patterns under a case policy. -/
def patterns_distinct (sensitive : Bool) : RegexColorList → Bool
  | [] => true
  | r :: rs =>
      (!rs.any fun t => patterns_equal sensitive r.pattern t.pattern) &&
        patterns_distinct sensitive rs

/-- A concrete environment in which every compilation succeeds. -/
def testEnv : Env :=
  { mutt_check_simple := fun s => s,
    mutt_pattern_comp := fun _ => some 0,
    reg_comp := fun _ _ => true }

/-- A concrete environment in which every compilation fails. -/
def failEnv : Env :=
  { mutt_check_simple := fun s => s,
    mutt_pattern_comp := fun _ => none,
    reg_comp := fun _ _ => false }

/-- A concrete pre-existing rule, used to exercise the engine. -/
def sample_rule : RegexColor :=
  { pattern := "abc", regex := some ("abc", REG_ICASE), color_pattern := none,
    attr_color := { curses_color := some { fg := 1, bg := 2 }, attrs := 0 },
    matchn := 0, stop_matching := false }

/-- Pairwise distinctness of a list of pattern texts under a case policy
(`patterns_distinct` seen through the stored pattern texts alone). -/
def patterns_distinct_str (sensitive : Bool) : List String → Bool
  | [] => true
  | s :: rest =>
      (!rest.any (patterns_equal sensitive s)) && patterns_distinct_str sensitive rest

/-- The nine rule classes served by `regex_colors_get_list`. -/
def rule_classes : List ColorId :=
  [.MT_COLOR_ATTACH_HEADERS, .MT_COLOR_BODY, .MT_COLOR_HEADER, .MT_COLOR_INDEX,
   .MT_COLOR_INDEX_AUTHOR, .MT_COLOR_INDEX_FLAGS, .MT_COLOR_INDEX_SUBJECT,
   .MT_COLOR_INDEX_TAG, .MT_COLOR_STATUS]

/-- The eight rule classes served by `regex_colors_parse_color_list`. -/
def color_list_classes : List ColorId :=
  [.MT_COLOR_ATTACH_HEADERS, .MT_COLOR_BODY, .MT_COLOR_HEADER, .MT_COLOR_INDEX,
   .MT_COLOR_INDEX_AUTHOR, .MT_COLOR_INDEX_FLAGS, .MT_COLOR_INDEX_SUBJECT,
   .MT_COLOR_INDEX_TAG]

/-- The five structured-record (index) classes: the ones whose successful
insert or update emits an invalidation notification. -/
def index_classes : List ColorId :=
  [.MT_COLOR_INDEX, .MT_COLOR_INDEX_AUTHOR, .MT_COLOR_INDEX_FLAGS,
   .MT_COLOR_INDEX_SUBJECT, .MT_COLOR_INDEX_TAG]

end RegexColour

namespace RegexColour

/-- The dedup-scan condition only looks at the stored pattern text. -/
theorem rcol_matches_eq (sensitive : Bool) (s : String) (r : RegexColor) :
    rcol_matches sensitive s r = patterns_equal sensitive s r.pattern := by
  cases sensitive <;> simp [rcol_matches, patterns_equal]

theorem patterns_equal_refl (sensitive : Bool) (s : String) :
    patterns_equal sensitive s s = true := by
  cases sensitive <;> simp [patterns_equal, mutt_str_equal, mutt_istr_equal]

theorem str_beq_comm {α : Type} [BEq α] [LawfulBEq α] [DecidableEq α] (a b : α) :
    (a == b) = (b == a) := by
  by_cases h : a = b
  · subst h; rfl
  · have h2 : ¬(b = a) := fun e => h e.symm
    rw [beq_eq_false_iff_ne.mpr h, beq_eq_false_iff_ne.mpr h2]

theorem patterns_equal_symm (sensitive : Bool) (a b : String) :
    patterns_equal sensitive a b = patterns_equal sensitive b a := by
  cases sensitive <;>
    simp [patterns_equal, mutt_str_equal, mutt_istr_equal, str_beq_comm]

/-- Updating the attribute colour of a rule that holds a resolved handle
always ends with the requested colours and style. -/
theorem update_attr_color_some (fg bg : Nat) (attrs : Int) (cc : CursesColor) (a0 : Int) :
    update_attr_color fg bg attrs { curses_color := some cc, attrs := a0 } =
      { curses_color := some { fg := fg, bg := bg }, attrs := attrs } := by
  cases cc with
  | mk ccfg ccbg =>
    by_cases hfg : ccfg = fg
    · by_cases hbg : ccbg = bg
      · subst hfg; subst hbg; simp [update_attr_color]
      · simp [update_attr_color, hbg]
    · simp [update_attr_color, hfg]

theorem update_first_append_left (p : RegexColor → Bool) (f : RegexColor → RegexColor)
    (l l2 : RegexColorList) (h : l.any p = false) :
    update_first p f (l ++ l2) = l ++ update_first p f l2 := by
  induction l with
  | nil => rfl
  | cons r rs ih =>
      simp only [List.any_cons, Bool.or_eq_false_iff] at h
      simp [update_first, h.1, ih h.2]

theorem update_first_map_pattern (p : RegexColor → Bool) (f : RegexColor → RegexColor)
    (hf : ∀ r, (f r).pattern = r.pattern) (l : RegexColorList) :
    (update_first p f l).map RegexColor.pattern = l.map RegexColor.pattern := by
  induction l with
  | nil => rfl
  | cons r rs ih =>
      by_cases h : p r = true
      · simp [update_first, h, hf]
      · simp [update_first, h, ih]

theorem update_first_length (p : RegexColor → Bool) (f : RegexColor → RegexColor)
    (l : RegexColorList) : (update_first p f l).length = l.length := by
  induction l with
  | nil => rfl
  | cons r rs ih =>
      by_cases h : p r = true <;> simp [update_first, h, ih]

/-- The found branch of `add_pattern`: a successful in-place update of the
first rule matching the pattern, notifying on an index class. -/
theorem add_pattern_found (env : Env) (rcl : RegexColorList) (s : String)
    (sensitive : Bool) (fg bg : Nat) (attrs : Int) (is_index : Bool) (matchn : Nat)
    (h : rcl.any (rcol_matches sensitive s) = true) :
    add_pattern env rcl s sensitive fg bg attrs is_index matchn =
      (.MUTT_CMD_SUCCESS,
        update_first (rcol_matches sensitive s)
          (fun r => { r with attr_color := update_attr_color fg bg attrs r.attr_color }) rcl,
        if is_index then [.MT_COLOR_INDEX] else []) := by
  simp [add_pattern, h]

/-- The literal insert branch, successful compile: append a fresh rule. -/
theorem add_pattern_insert_regex_ok (env : Env) (rcl : RegexColorList) (s : String)
    (sensitive : Bool) (fg bg : Nat) (attrs : Int) (matchn : Nat)
    (hn : rcl.any (rcol_matches sensitive s) = false)
    (hc : env.reg_comp s (regex_flags sensitive s) = true) :
    add_pattern env rcl s sensitive fg bg attrs false matchn =
      (.MUTT_CMD_SUCCESS, rcl ++ [fresh_rule env s sensitive fg bg attrs false matchn], []) := by
  simp [add_pattern, hn, hc]

/-- The literal insert branch, failing compile: error, list untouched. -/
theorem add_pattern_insert_regex_err (env : Env) (rcl : RegexColorList) (s : String)
    (sensitive : Bool) (fg bg : Nat) (attrs : Int) (matchn : Nat)
    (hn : rcl.any (rcol_matches sensitive s) = false)
    (hc : env.reg_comp s (regex_flags sensitive s) = false) :
    add_pattern env rcl s sensitive fg bg attrs false matchn =
      (.MUTT_CMD_ERROR, rcl, []) := by
  simp [add_pattern, hn, hc]

/-- The index insert branch, successful compile: append and notify. -/
theorem add_pattern_insert_index_ok (env : Env) (rcl : RegexColorList) (s : String)
    (sensitive : Bool) (fg bg : Nat) (attrs : Int) (matchn : Nat) (t : Nat)
    (hn : rcl.any (rcol_matches sensitive s) = false)
    (hc : env.mutt_pattern_comp (env.mutt_check_simple s) = some t) :
    add_pattern env rcl s sensitive fg bg attrs true matchn =
      (.MUTT_CMD_SUCCESS, rcl ++ [fresh_rule env s sensitive fg bg attrs true matchn],
        [.MT_COLOR_INDEX]) := by
  simp [add_pattern, hn, hc]

/-- The index insert branch, failing compile: error, list untouched. -/
theorem add_pattern_insert_index_err (env : Env) (rcl : RegexColorList) (s : String)
    (sensitive : Bool) (fg bg : Nat) (attrs : Int) (matchn : Nat)
    (hn : rcl.any (rcol_matches sensitive s) = false)
    (hc : env.mutt_pattern_comp (env.mutt_check_simple s) = none) :
    add_pattern env rcl s sensitive fg bg attrs true matchn =
      (.MUTT_CMD_ERROR, rcl, []) := by
  simp [add_pattern, hn, hc]

/-- Inversion: a successful call on a list not containing the pattern is an
append of the fresh rule. -/
theorem add_pattern_insert_success (env : Env) (rcl : RegexColorList) (s : String)
    (sensitive : Bool) (fg bg : Nat) (attrs : Int) (is_index : Bool) (matchn : Nat)
    (rcl' : RegexColorList) (notes : List ColorId)
    (hn : rcl.any (rcol_matches sensitive s) = false)
    (h : add_pattern env rcl s sensitive fg bg attrs is_index matchn =
      (.MUTT_CMD_SUCCESS, rcl', notes)) :
    rcl' = rcl ++ [fresh_rule env s sensitive fg bg attrs is_index matchn] := by
  cases is_index
  · rcases hc : env.reg_comp s (regex_flags sensitive s)
    · rw [add_pattern_insert_regex_err env rcl s sensitive fg bg attrs matchn hn hc] at h
      exact absurd (congrArg Prod.fst h) (by simp)
    · rw [add_pattern_insert_regex_ok env rcl s sensitive fg bg attrs matchn hn hc] at h
      exact (congrArg (fun x => x.2.1) h).symm
  · rcases hc : env.mutt_pattern_comp (env.mutt_check_simple s) with _ | t
    · rw [add_pattern_insert_index_err env rcl s sensitive fg bg attrs matchn hn hc] at h
      exact absurd (congrArg Prod.fst h) (by simp)
    · rw [add_pattern_insert_index_ok env rcl s sensitive fg bg attrs matchn t hn hc] at h
      exact (congrArg (fun x => x.2.1) h).symm

/-- The fresh rule stores the pattern text it was built from. -/
theorem fresh_rule_pattern (env : Env) (s : String) (sensitive : Bool) (fg bg : Nat)
    (attrs : Int) (is_index : Bool) (matchn : Nat) :
    (fresh_rule env s sensitive fg bg attrs is_index matchn).pattern = s := by
  cases is_index <;> simp [fresh_rule]

/-- The fresh rule carries a newly resolved attribute colour. -/
theorem fresh_rule_attr_color (env : Env) (s : String) (sensitive : Bool) (fg bg : Nat)
    (attrs : Int) (is_index : Bool) (matchn : Nat) :
    (fresh_rule env s sensitive fg bg attrs is_index matchn).attr_color =
      { curses_color := some { fg := fg, bg := bg }, attrs := attrs } := by
  cases is_index <;> simp [fresh_rule]

end RegexColour

namespace RegexColour

theorem mutt_mb_is_lower_eq_not_any (s : String) :
    mutt_mb_is_lower s = !(s.toList.any fun c => c.isUpper) := by
  unfold mutt_mb_is_lower
  induction s.toList with
  | nil => rfl
  | cons c cs ih => simp [List.all_cons, List.any_cons, ih, Bool.not_or]

theorem filter_nil_of_any_false (p : RegexColor → Bool) (l : RegexColorList)
    (h : l.any p = false) : l.filter p = [] := by
  induction l with
  | nil => rfl
  | cons r rs ih =>
      simp only [List.any_cons, Bool.or_eq_false_iff] at h
      simp [List.filter_cons, h.1, ih h.2]

theorem any_map_pattern (p : String → Bool) (l : RegexColorList) :
    (l.map RegexColor.pattern).any p = l.any fun r => p r.pattern := by
  induction l with
  | nil => rfl
  | cons r rs ih => simp [List.any_cons, ih]

theorem patterns_distinct_eq_str (sensitive : Bool) (l : RegexColorList) :
    patterns_distinct sensitive l =
      patterns_distinct_str sensitive (l.map RegexColor.pattern) := by
  induction l with
  | nil => rfl
  | cons r rs ih =>
      have hmap := any_map_pattern (patterns_equal sensitive r.pattern) rs
      simp [patterns_distinct, patterns_distinct_str, ih, hmap]

theorem patterns_distinct_str_append_singleton (sensitive : Bool) (l : List String)
    (s : String) (h : l.any (fun t => patterns_equal sensitive t s) = false)
    (hd : patterns_distinct_str sensitive l = true) :
    patterns_distinct_str sensitive (l ++ [s]) = true := by
  induction l with
  | nil => simp [patterns_distinct_str]
  | cons x xs ih =>
      simp only [List.any_cons, Bool.or_eq_false_iff] at h
      simp only [patterns_distinct_str, Bool.and_eq_true, Bool.not_eq_true',
        List.cons_append] at hd ⊢
      refine ⟨?_, ih h.2 hd.2⟩
      simp [List.any_append, hd.1, patterns_distinct_str, h.1]

theorem any_matches_false_map (sensitive : Bool) (s : String) (rcl : RegexColorList)
    (hn : rcl.any (rcol_matches sensitive s) = false) :
    (rcl.map RegexColor.pattern).any (fun t => patterns_equal sensitive t s) = false := by
  rw [any_map_pattern (fun t => patterns_equal sensitive t s) rcl]
  rw [List.any_eq_false] at hn ⊢
  intro r hr
  have h1 := hn r hr
  rw [rcol_matches_eq] at h1
  rw [patterns_equal_symm]
  simpa using h1

/-- On a failing call, the list and the notifications are untouched. -/
theorem add_pattern_error_frame (env : Env) (rcl : RegexColorList) (s : String)
    (sensitive : Bool) (fg bg : Nat) (attrs : Int) (is_index : Bool) (matchn : Nat)
    (h : (add_pattern env rcl s sensitive fg bg attrs is_index matchn).1 =
      .MUTT_CMD_ERROR) :
    (add_pattern env rcl s sensitive fg bg attrs is_index matchn).2.1 = rcl ∧
    (add_pattern env rcl s sensitive fg bg attrs is_index matchn).2.2 = [] := by
  by_cases hf : rcl.any (rcol_matches sensitive s) = true
  · rw [add_pattern_found env rcl s sensitive fg bg attrs is_index matchn hf] at h
    exact absurd h (by simp)
  · rw [Bool.not_eq_true] at hf
    cases is_index
    · rcases hc : env.reg_comp s (regex_flags sensitive s)
      · rw [add_pattern_insert_regex_err env rcl s sensitive fg bg attrs matchn hf hc]
        exact ⟨rfl, rfl⟩
      · rw [add_pattern_insert_regex_ok env rcl s sensitive fg bg attrs matchn hf hc] at h
        exact absurd h (by simp)
    · rcases hc : env.mutt_pattern_comp (env.mutt_check_simple s) with _ | t
      · rw [add_pattern_insert_index_err env rcl s sensitive fg bg attrs matchn hf hc]
        exact ⟨rfl, rfl⟩
      · rw [add_pattern_insert_index_ok env rcl s sensitive fg bg attrs matchn t hf hc] at h
        exact absurd h (by simp)

/-- The result of `add_pattern` is always success or error. -/
theorem add_pattern_result_cases (env : Env) (rcl : RegexColorList) (s : String)
    (sensitive : Bool) (fg bg : Nat) (attrs : Int) (is_index : Bool) (matchn : Nat) :
    (add_pattern env rcl s sensitive fg bg attrs is_index matchn).1 =
        .MUTT_CMD_SUCCESS ∨
      (add_pattern env rcl s sensitive fg bg attrs is_index matchn).1 =
        .MUTT_CMD_ERROR := by
  by_cases hf : rcl.any (rcol_matches sensitive s) = true
  · rw [add_pattern_found env rcl s sensitive fg bg attrs is_index matchn hf]
    exact Or.inl rfl
  · rw [Bool.not_eq_true] at hf
    cases is_index
    · rcases hc : env.reg_comp s (regex_flags sensitive s)
      · rw [add_pattern_insert_regex_err env rcl s sensitive fg bg attrs matchn hf hc]
        exact Or.inr rfl
      · rw [add_pattern_insert_regex_ok env rcl s sensitive fg bg attrs matchn hf hc]
        exact Or.inl rfl
    · rcases hc : env.mutt_pattern_comp (env.mutt_check_simple s) with _ | t
      · rw [add_pattern_insert_index_err env rcl s sensitive fg bg attrs matchn hf hc]
        exact Or.inr rfl
      · rw [add_pattern_insert_index_ok env rcl s sensitive fg bg attrs matchn t hf hc]
        exact Or.inl rfl

/-- On an index class, a successful call notifies exactly `MT_COLOR_INDEX`. -/
theorem add_pattern_index_notes (env : Env) (rcl : RegexColorList) (s : String)
    (sensitive : Bool) (fg bg : Nat) (attrs : Int) (matchn : Nat)
    (h : (add_pattern env rcl s sensitive fg bg attrs true matchn).1 =
      .MUTT_CMD_SUCCESS) :
    (add_pattern env rcl s sensitive fg bg attrs true matchn).2.2 =
      [.MT_COLOR_INDEX] := by
  by_cases hf : rcl.any (rcol_matches sensitive s) = true
  · simp [add_pattern_found env rcl s sensitive fg bg attrs true matchn hf]
  · rw [Bool.not_eq_true] at hf
    rcases hc : env.mutt_pattern_comp (env.mutt_check_simple s) with _ | t
    · rw [add_pattern_insert_index_err env rcl s sensitive fg bg attrs matchn hf hc] at h
      exact absurd h (by simp)
    · simp [add_pattern_insert_index_ok env rcl s sensitive fg bg attrs matchn t hf hc]

/-- On a non-index class, no notification is ever sent. -/
theorem add_pattern_not_index_notes (env : Env) (rcl : RegexColorList) (s : String)
    (sensitive : Bool) (fg bg : Nat) (attrs : Int) (matchn : Nat) :
    (add_pattern env rcl s sensitive fg bg attrs false matchn).2.2 = [] := by
  by_cases hf : rcl.any (rcol_matches sensitive s) = true
  · simp [add_pattern_found env rcl s sensitive fg bg attrs false matchn hf]
  · rw [Bool.not_eq_true] at hf
    rcases hc : env.reg_comp s (regex_flags sensitive s)
    · simp [add_pattern_insert_regex_err env rcl s sensitive fg bg attrs matchn hf hc]
    · simp [add_pattern_insert_regex_ok env rcl s sensitive fg bg attrs matchn hf hc]

end RegexColour

namespace RegexColour

theorem update_attr_of_fresh (env : Env) (s : String) (sensitive : Bool)
    (fg1 bg1 : Nat) (a1 : Int) (is_index : Bool) (m1 : Nat)
    (fg2 bg2 : Nat) (a2 : Int) :
    { fresh_rule env s sensitive fg1 bg1 a1 is_index m1 with
      attr_color := update_attr_color fg2 bg2 a2
        (fresh_rule env s sensitive fg1 bg1 a1 is_index m1).attr_color } =
    { fresh_rule env s sensitive fg1 bg1 a1 is_index m1 with
      attr_color := { curses_color := some { fg := fg2, bg := bg2 }, attrs := a2 } } := by
  rw [fresh_rule_attr_color, update_attr_color_some]

theorem patterns_distinct_snoc (sensitive : Bool) (rcl : RegexColorList) (r : RegexColor)
    (hn : rcl.any (rcol_matches sensitive r.pattern) = false)
    (hd : patterns_distinct sensitive rcl = true) :
    patterns_distinct sensitive (rcl ++ [r]) = true := by
  rw [patterns_distinct_eq_str, List.map_append]
  show patterns_distinct_str sensitive (rcl.map RegexColor.pattern ++ [r.pattern]) = true
  apply patterns_distinct_str_append_singleton
  · exact any_matches_false_map sensitive r.pattern rcl hn
  · rw [← patterns_distinct_eq_str]; exact hd

end RegexColour

namespace RegexColour

/-- C2: for a literal class marked case-sensitive by the caller, an entirely
lowercase pattern is compiled with `REG_ICASE` while a pattern containing an
uppercase character is compiled case-sensitively; a class marked
case-insensitive always compiles with `REG_ICASE`.  The flags used for the
compile call are the flags stored in the new rule. -/
theorem add_pattern_lowercase_auto_relax (s : String) :
    (regex_flags true s =
      if s.toList.all (fun c => !c.isUpper) then REG_ICASE else 0) ∧
    ((s.toList.any fun c => c.isUpper) = true → regex_flags true s = 0) ∧
    (regex_flags false s = REG_ICASE) ∧
    (∀ (env : Env) (rcl : RegexColorList) (sensitive : Bool) (fg bg : Nat)
        (attrs : Int) (matchn : Nat),
      rcl.any (rcol_matches sensitive s) = false →
      env.reg_comp s (regex_flags sensitive s) = true →
      add_pattern env rcl s sensitive fg bg attrs false matchn =
        (.MUTT_CMD_SUCCESS, rcl ++ [fresh_rule env s sensitive fg bg attrs false matchn],
          []) ∧
      (fresh_rule env s sensitive fg bg attrs false matchn).regex =
        some (s, regex_flags sensitive s)) := by
  refine ⟨by simp [regex_flags, mutt_mb_is_lower], ?_, by simp [regex_flags], ?_⟩
  · intro h
    have hl : mutt_mb_is_lower s = false := by
      rw [mutt_mb_is_lower_eq_not_any, h]; rfl
    simp [regex_flags, hl]
  · intro env rcl sensitive fg bg attrs matchn hn hc
    exact ⟨add_pattern_insert_regex_ok env rcl s sensitive fg bg attrs matchn hn hc,
      by simp [fresh_rule]⟩

/-- Witness for C2: the uppercase pattern "Foo" compiles case-sensitively,
and the lowercase pattern "foo" on a case-sensitive class is inserted with
`REG_ICASE` stored in its compiled regex. -/
theorem add_pattern_lowercase_auto_relax_witness :
    regex_flags true "Foo" = 0 ∧
    (add_pattern testEnv [] "foo" true 1 2 3 false 0 =
      (.MUTT_CMD_SUCCESS, [fresh_rule testEnv "foo" true 1 2 3 false 0], []) ∧
      (fresh_rule testEnv "foo" true 1 2 3 false 0).regex =
        some ("foo", regex_flags true "foo")) := by
  constructor
  · exact (add_pattern_lowercase_auto_relax "Foo").2.1 (by decide)
  · have h := (add_pattern_lowercase_auto_relax "foo").2.2.2 testEnv [] true 1 2 3 0 rfl rfl
    simpa using h

/-- C3: a failing call of add_or_update_rule (compile error on either the
literal or the structured path) returns the error with the rule list exactly
as it was: no partial rule is appended and no notification is sent. -/
theorem add_pattern_failure_leaves_list_untouched (env : Env) (rcl : RegexColorList)
    (s : String) (sensitive : Bool) (fg bg : Nat) (attrs : Int) (is_index : Bool)
    (matchn : Nat) (rcl' : RegexColorList) (notes : List ColorId)
    (h : add_pattern env rcl s sensitive fg bg attrs is_index matchn =
      (.MUTT_CMD_ERROR, rcl', notes)) :
    rcl' = rcl ∧ notes = [] := by
  have e0 : (add_pattern env rcl s sensitive fg bg attrs is_index matchn).1 =
      .MUTT_CMD_ERROR := by rw [h]
  have hf := add_pattern_error_frame env rcl s sensitive fg bg attrs is_index matchn e0
  rw [h] at hf
  simpa using hf

/-- Witness for C3: an uncompilable pattern submitted to a one-rule list
leaves that rule unchanged and sends no notification. -/
theorem add_pattern_failure_witness :
    (add_pattern failEnv [sample_rule] "x" true 1 2 3 false 0).2.1 = [sample_rule] ∧
    (add_pattern failEnv [sample_rule] "x" true 1 2 3 false 0).2.2 = [] :=
  add_pattern_failure_leaves_list_untouched failEnv [sample_rule] "x" true 1 2 3 false 0
    (add_pattern failEnv [sample_rule] "x" true 1 2 3 false 0).2.1
    (add_pattern failEnv [sample_rule] "x" true 1 2 3 false 0).2.2 rfl

/-- C4: on a structured-record (index) class, every successful call of
add_or_update_rule — insert or update — emits exactly the one invalidation
notification, and a failing call emits none; the result is always success or
error. -/
theorem add_pattern_index_invalidation (env : Env) (rcl : RegexColorList) (s : String)
    (sensitive : Bool) (fg bg : Nat) (attrs : Int) (matchn : Nat) :
    ((add_pattern env rcl s sensitive fg bg attrs true matchn).1 =
        .MUTT_CMD_SUCCESS →
      (add_pattern env rcl s sensitive fg bg attrs true matchn).2.2 =
        [.MT_COLOR_INDEX]) ∧
    ((add_pattern env rcl s sensitive fg bg attrs true matchn).1 = .MUTT_CMD_ERROR →
      (add_pattern env rcl s sensitive fg bg attrs true matchn).2.2 = []) ∧
    ((add_pattern env rcl s sensitive fg bg attrs true matchn).1 =
        .MUTT_CMD_SUCCESS ∨
      (add_pattern env rcl s sensitive fg bg attrs true matchn).1 =
        .MUTT_CMD_ERROR) :=
  ⟨add_pattern_index_notes env rcl s sensitive fg bg attrs matchn,
   fun h => (add_pattern_error_frame env rcl s sensitive fg bg attrs true matchn h).2,
   add_pattern_result_cases env rcl s sensitive fg bg attrs true matchn⟩

/-- Witness for C4: a successful index insert notifies once; a failed index
compile notifies zero times. -/
theorem add_pattern_index_invalidation_witness :
    (add_pattern testEnv [] "x" true 1 2 3 true 0).2.2 = [.MT_COLOR_INDEX] ∧
    (add_pattern failEnv [] "x" true 1 2 3 true 0).2.2 = [] :=
  ⟨(add_pattern_index_invalidation testEnv [] "x" true 1 2 3 0).1 rfl,
   (add_pattern_index_invalidation failEnv [] "x" true 1 2 3 0).2.1 rfl⟩

end RegexColour

namespace RegexColour

/-- C1: registering the same pattern twice (under the class's case policy)
yields exactly one rule: the first successful call appends the fresh rule,
the second is an in-place update that re-resolves the attribute handle to
the newly requested colours and replaces the style bitmask, touching
nothing else of the rule (pattern, matcher and submatch index come from the
first call). -/
theorem add_pattern_dedup_single_rule (env : Env) (rcl : RegexColorList) (s : String)
    (sensitive : Bool) (fg1 bg1 : Nat) (a1 : Int) (fg2 bg2 : Nat) (a2 : Int)
    (is_index : Bool) (m1 m2 : Nat) (rcl1 rcl2 : RegexColorList)
    (notes1 notes2 : List ColorId)
    (hn : rcl.any (rcol_matches sensitive s) = false)
    (h1 : add_pattern env rcl s sensitive fg1 bg1 a1 is_index m1 =
      (.MUTT_CMD_SUCCESS, rcl1, notes1))
    (h2 : add_pattern env rcl1 s sensitive fg2 bg2 a2 is_index m2 =
      (.MUTT_CMD_SUCCESS, rcl2, notes2)) :
    rcl1 = rcl ++ [fresh_rule env s sensitive fg1 bg1 a1 is_index m1] ∧
    rcl2 = rcl ++ [{ fresh_rule env s sensitive fg1 bg1 a1 is_index m1 with
      attr_color := { curses_color := some { fg := fg2, bg := bg2 }, attrs := a2 } }] ∧
    (rcl2.filter (rcol_matches sensitive s)).length = 1 := by
  have hr1 : rcl1 = rcl ++ [fresh_rule env s sensitive fg1 bg1 a1 is_index m1] :=
    add_pattern_insert_success env rcl s sensitive fg1 bg1 a1 is_index m1 rcl1 notes1 hn h1
  have pR : rcol_matches sensitive s (fresh_rule env s sensitive fg1 bg1 a1 is_index m1) =
      true := by
    rw [rcol_matches_eq, fresh_rule_pattern]
    exact patterns_equal_refl sensitive s
  have hany : rcl1.any (rcol_matches sensitive s) = true := by
    rw [hr1, List.any_append]
    simp [pR]
  rw [add_pattern_found env rcl1 s sensitive fg2 bg2 a2 is_index m2 hany] at h2
  have hr2 : rcl2 = update_first (rcol_matches sensitive s)
      (fun r => { r with attr_color := update_attr_color fg2 bg2 a2 r.attr_color })
      rcl1 := by
    have := congrArg (fun x => x.2.1) h2
    simpa using this.symm
  rw [hr1, update_first_append_left _ _ rcl _ hn] at hr2
  have hone : update_first (rcol_matches sensitive s)
      (fun r => { r with attr_color := update_attr_color fg2 bg2 a2 r.attr_color })
      [fresh_rule env s sensitive fg1 bg1 a1 is_index m1] =
      [{ fresh_rule env s sensitive fg1 bg1 a1 is_index m1 with attr_color := { curses_color := some { fg := fg2, bg := bg2 }, attrs := a2 } }] := by
    simp only [update_first, pR, if_true]
    rw [update_attr_of_fresh]
  rw [hone] at hr2
  refine ⟨hr1, hr2, ?_⟩
  rw [hr2, List.filter_append, filter_nil_of_any_false _ rcl hn]
  have pR2 : rcol_matches sensitive s
      { fresh_rule env s sensitive fg1 bg1 a1 is_index m1 with attr_color := { curses_color := some { fg := fg2, bg := bg2 }, attrs := a2 } } = true := by
    rw [rcol_matches_eq]
    show patterns_equal sensitive s
      (fresh_rule env s sensitive fg1 bg1 a1 is_index m1).pattern = true
    rw [fresh_rule_pattern]
    exact patterns_equal_refl sensitive s
  simp [List.filter_cons, pR2]

/-- Witness for C1: inserting "foo" with colours (1,2) and style 10 and then
re-registering it with colours (3,4) and style 11 leaves a single rule whose
matcher comes from the first call and whose attribute carries the second
call's colours and style. -/
theorem add_pattern_dedup_witness :
    (add_pattern testEnv
        (add_pattern testEnv [] "foo" true 1 2 10 false 0).2.1
        "foo" true 3 4 11 false 0).2.1 =
      [{ fresh_rule testEnv "foo" true 1 2 10 false 0 with attr_color := { curses_color := some { fg := 3, bg := 4 }, attrs := 11 } }] := by
  have h := add_pattern_dedup_single_rule testEnv [] "foo" true 1 2 10 3 4 11 false 0 0
      (add_pattern testEnv [] "foo" true 1 2 10 false 0).2.1
      (add_pattern testEnv (add_pattern testEnv [] "foo" true 1 2 10 false 0).2.1
        "foo" true 3 4 11 false 0).2.1
      (add_pattern testEnv [] "foo" true 1 2 10 false 0).2.2
      (add_pattern testEnv (add_pattern testEnv [] "foo" true 1 2 10 false 0).2.1
        "foo" true 3 4 11 false 0).2.2
      rfl rfl rfl
  simpa using h.2.1

/-- C6: pattern texts in one rule list remain pairwise distinct under the
list's case policy across every call of add_or_update_rule; concretely,
adding "foo" then "Foo" gives two rules on a case-sensitive class and a
single rule on a case-insensitive class. -/
theorem add_pattern_pattern_uniqueness :
    (∀ (env : Env) (rcl : RegexColorList) (s : String) (sensitive : Bool)
        (fg bg : Nat) (attrs : Int) (is_index : Bool) (matchn : Nat),
      patterns_distinct sensitive rcl = true →
      patterns_distinct sensitive
        (add_pattern env rcl s sensitive fg bg attrs is_index matchn).2.1 = true) ∧
    ((add_pattern testEnv (add_pattern testEnv [] "foo" true 1 2 0 false 0).2.1
        "Foo" true 1 2 0 false 0).2.1.length = 2) ∧
    ((add_pattern testEnv (add_pattern testEnv [] "foo" false 1 2 0 false 0).2.1
        "Foo" false 1 2 0 false 0).2.1.length = 1) := by
  refine ⟨?_, rfl, rfl⟩
  intro env rcl s sensitive fg bg attrs is_index matchn hd
  by_cases hf : rcl.any (rcol_matches sensitive s) = true
  · rw [add_pattern_found env rcl s sensitive fg bg attrs is_index matchn hf]
    show patterns_distinct sensitive (update_first _ _ rcl) = true
    rw [patterns_distinct_eq_str,
      update_first_map_pattern (rcol_matches sensitive s)
        (fun r => { r with attr_color := update_attr_color fg bg attrs r.attr_color })
        (fun r => rfl) rcl,
      ← patterns_distinct_eq_str]
    exact hd
  · rw [Bool.not_eq_true] at hf
    cases is_index
    · rcases hc : env.reg_comp s (regex_flags sensitive s)
      · rw [add_pattern_insert_regex_err env rcl s sensitive fg bg attrs matchn hf hc]
        exact hd
      · rw [add_pattern_insert_regex_ok env rcl s sensitive fg bg attrs matchn hf hc]
        show patterns_distinct sensitive
          (rcl ++ [fresh_rule env s sensitive fg bg attrs false matchn]) = true
        refine patterns_distinct_snoc sensitive rcl _ ?_ hd
        rw [fresh_rule_pattern]
        exact hf
    · rcases hc : env.mutt_pattern_comp (env.mutt_check_simple s) with _ | t
      · rw [add_pattern_insert_index_err env rcl s sensitive fg bg attrs matchn hf hc]
        exact hd
      · rw [add_pattern_insert_index_ok env rcl s sensitive fg bg attrs matchn t hf hc]
        show patterns_distinct sensitive
          (rcl ++ [fresh_rule env s sensitive fg bg attrs true matchn]) = true
        refine patterns_distinct_snoc sensitive rcl _ ?_ hd
        rw [fresh_rule_pattern]
        exact hf

/-- Witness for C6: starting from an empty list, an insert keeps the
patterns pairwise distinct. -/
theorem add_pattern_pattern_uniqueness_witness :
    patterns_distinct true (add_pattern testEnv [] "foo" true 1 2 0 false 0).2.1 =
      true :=
  add_pattern_pattern_uniqueness.1 testEnv [] "foo" true 1 2 0 false 0 rfl

/-- C7: a brand-new rule is appended at the end of the list, an update
leaves every rule's position unchanged; registering "a", "b", "c" on an
empty list yields traversal order a, b, c, and recolouring "b" does not
move it. -/
theorem add_pattern_order_preservation :
    (∀ (env : Env) (rcl : RegexColorList) (s : String) (sensitive : Bool)
        (fg bg : Nat) (attrs : Int) (is_index : Bool) (matchn : Nat),
      rcl.any (rcol_matches sensitive s) = false →
      (add_pattern env rcl s sensitive fg bg attrs is_index matchn).1 =
        .MUTT_CMD_SUCCESS →
      (add_pattern env rcl s sensitive fg bg attrs is_index matchn).2.1 =
        rcl ++ [fresh_rule env s sensitive fg bg attrs is_index matchn]) ∧
    (∀ (env : Env) (rcl : RegexColorList) (s : String) (sensitive : Bool)
        (fg bg : Nat) (attrs : Int) (is_index : Bool) (matchn : Nat),
      rcl.any (rcol_matches sensitive s) = true →
      (add_pattern env rcl s sensitive fg bg attrs is_index matchn).2.1.map
          RegexColor.pattern =
        rcl.map RegexColor.pattern) ∧
    ((add_pattern testEnv (add_pattern testEnv
        (add_pattern testEnv [] "a" true 1 2 0 false 0).2.1
        "b" true 1 2 0 false 0).2.1
        "c" true 1 2 0 false 0).2.1.map RegexColor.pattern = ["a", "b", "c"]) ∧
    ((add_pattern testEnv (add_pattern testEnv (add_pattern testEnv
        (add_pattern testEnv [] "a" true 1 2 0 false 0).2.1
        "b" true 1 2 0 false 0).2.1
        "c" true 1 2 0 false 0).2.1
        "b" true 7 8 9 false 0).2.1.map RegexColor.pattern = ["a", "b", "c"]) := by
  refine ⟨?_, ?_, rfl, rfl⟩
  · intro env rcl s sensitive fg bg attrs is_index matchn hn hs
    exact add_pattern_insert_success env rcl s sensitive fg bg attrs is_index matchn
      (add_pattern env rcl s sensitive fg bg attrs is_index matchn).2.1
      (add_pattern env rcl s sensitive fg bg attrs is_index matchn).2.2 hn
      (by rw [← hs])
  · intro env rcl s sensitive fg bg attrs is_index matchn hf
    rw [add_pattern_found env rcl s sensitive fg bg attrs is_index matchn hf]
    exact update_first_map_pattern (rcol_matches sensitive s)
      (fun r => { r with attr_color := update_attr_color fg bg attrs r.attr_color })
      (fun r => rfl) rcl

/-- Witness for C7: a fresh insert on an empty list appends, and an update
of a one-rule list preserves the pattern order. -/
theorem add_pattern_order_preservation_witness :
    (add_pattern testEnv [] "a" true 1 2 0 false 0).2.1 =
      [fresh_rule testEnv "a" true 1 2 0 false 0] ∧
    (add_pattern testEnv [sample_rule] "abc" true 7 8 9 false 0).2.1.map
        RegexColor.pattern =
      [sample_rule].map RegexColor.pattern := by
  constructor
  · have h := add_pattern_order_preservation.1 testEnv [] "a" true 1 2 0 false 0 rfl rfl
    simpa using h
  · exact add_pattern_order_preservation.2.1 testEnv [sample_rule] "abc" true 7 8 9
      false 0 rfl

end RegexColour

namespace RegexColour

/-- C5 (amended): the invalidation notification emitted by a successful
add_or_update_rule on any of the five structured-record (index) classes
always carries the generic `MT_COLOR_INDEX` identifier, not the specific
class identifier that was modified. -/
theorem parse_color_list_index_notification (env : Env) (st : RegexColors)
    (color : ColorId) (pat : String) (fg bg : Nat) (attrs : Int)
    (hc : color ∈ index_classes)
    (hs : (regex_colors_parse_color_list env st color pat fg bg attrs).2.1 =
      some .MUTT_CMD_SUCCESS) :
    (regex_colors_parse_color_list env st color pat fg bg attrs).2.2.2 =
      [.MT_COLOR_INDEX] := by
  simp only [index_classes, List.mem_cons, List.mem_singleton] at hc
  rcases hc with rfl | rfl | rfl | rfl | rfl | h
  · exact add_pattern_index_notes env st.IndexList pat true fg bg attrs 0
      (Option.some.inj hs)
  · exact add_pattern_index_notes env st.IndexAuthorList pat true fg bg attrs 0
      (Option.some.inj hs)
  · exact add_pattern_index_notes env st.IndexFlagsList pat true fg bg attrs 0
      (Option.some.inj hs)
  · exact add_pattern_index_notes env st.IndexSubjectList pat true fg bg attrs 0
      (Option.some.inj hs)
  · exact add_pattern_index_notes env st.IndexTagList pat true fg bg attrs 0
      (Option.some.inj hs)
  · cases h

/-- Counterexample for C5 as stated: a successful registration on the
index-author class notifies `MT_COLOR_INDEX`, not the class's own
identifier `MT_COLOR_INDEX_AUTHOR`. -/
theorem parse_color_list_notification_counterexample :
    (regex_colors_parse_color_list testEnv regex_colors_init .MT_COLOR_INDEX_AUTHOR
        "x" 1 2 0).2.1 = some .MUTT_CMD_SUCCESS ∧
    (regex_colors_parse_color_list testEnv regex_colors_init .MT_COLOR_INDEX_AUTHOR
        "x" 1 2 0).2.2.2 = [.MT_COLOR_INDEX] ∧
    (ColorId.MT_COLOR_INDEX ≠ ColorId.MT_COLOR_INDEX_AUTHOR) :=
  ⟨rfl, rfl, by decide⟩

/-- Witness for C5 (amended): a successful registration on the index-flags
class notifies `MT_COLOR_INDEX`. -/
theorem parse_color_list_index_notification_witness :
    (regex_colors_parse_color_list testEnv regex_colors_init .MT_COLOR_INDEX_FLAGS
        "x" 1 2 0).2.2.2 = [.MT_COLOR_INDEX] :=
  parse_color_list_index_notification testEnv regex_colors_init .MT_COLOR_INDEX_FLAGS
    "x" 1 2 0 (by decide) rfl

/-- C8: on the update path, a rule whose attribute has no resolved curses
colour handle keeps it unresolved — only the style bitmask is replaced,
even when the requested colours differ; a new handle is resolved exactly
when a handle exists and its (fg, bg) differ from the request; and the
update path of add_or_update_rule applies precisely this attribute update
to the first matching rule. -/
theorem add_pattern_update_frame :
    (∀ (fg bg : Nat) (attrs : Int) (ac : AttrColor), ac.curses_color = none →
      update_attr_color fg bg attrs ac = { ac with attrs := attrs }) ∧
    (∀ (fg bg : Nat) (attrs : Int) (ac : AttrColor) (cc : CursesColor),
      ac.curses_color = some cc → (cc.fg ≠ fg ∨ cc.bg ≠ bg) →
      update_attr_color fg bg attrs ac =
        { curses_color := some { fg := fg, bg := bg }, attrs := attrs }) ∧
    (∀ (fg bg : Nat) (attrs : Int) (ac : AttrColor) (cc : CursesColor),
      ac.curses_color = some cc → cc.fg = fg → cc.bg = bg →
      update_attr_color fg bg attrs ac = { ac with attrs := attrs }) ∧
    (∀ (env : Env) (rcl : RegexColorList) (s : String) (sensitive : Bool)
        (fg bg : Nat) (attrs : Int) (is_index : Bool) (matchn : Nat),
      rcl.any (rcol_matches sensitive s) = true →
      add_pattern env rcl s sensitive fg bg attrs is_index matchn =
        (.MUTT_CMD_SUCCESS,
          update_first (rcol_matches sensitive s)
            (fun r => { r with attr_color := update_attr_color fg bg attrs r.attr_color })
            rcl,
          if is_index then [.MT_COLOR_INDEX] else [])) := by
  refine ⟨?_, ?_, ?_, add_pattern_found⟩
  · intro fg bg attrs ac h
    cases ac with
    | mk cco a0 =>
        dsimp only at h
        subst h
        simp [update_attr_color]
  · intro fg bg attrs ac cc h h2
    cases ac with
    | mk cco a0 =>
        dsimp only at h
        subst h
        simp only [update_attr_color]
        rw [if_pos h2]
  · intro fg bg attrs ac cc h hfg hbg
    cases ac with
    | mk cco a0 =>
        dsimp only at h
        subst h
        simp only [update_attr_color]
        rw [if_neg (by simp [hfg, hbg])]

/-- Witness for C8: with no resolved handle only the style changes; with a
differing handle the colours are re-resolved; with an equal handle they are
kept; and an update call on a one-rule list rewrites exactly that rule. -/
theorem add_pattern_update_frame_witness :
    update_attr_color 1 2 5 { curses_color := none, attrs := 7 } =
      { curses_color := none, attrs := 5 } ∧
    update_attr_color 3 4 5 { curses_color := some { fg := 1, bg := 2 }, attrs := 7 } =
      { curses_color := some { fg := 3, bg := 4 }, attrs := 5 } ∧
    update_attr_color 1 2 5 { curses_color := some { fg := 1, bg := 2 }, attrs := 7 } =
      { curses_color := some { fg := 1, bg := 2 }, attrs := 5 } ∧
    add_pattern testEnv [sample_rule] "abc" true 3 4 5 false 0 =
      (.MUTT_CMD_SUCCESS,
        update_first (rcol_matches true "abc")
          (fun r => { r with attr_color := update_attr_color 3 4 5 r.attr_color })
          [sample_rule],
        []) :=
  ⟨add_pattern_update_frame.1 1 2 5 { curses_color := none, attrs := 7 } rfl,
   add_pattern_update_frame.2.1 3 4 5
     { curses_color := some { fg := 1, bg := 2 }, attrs := 7 }
     { fg := 1, bg := 2 } rfl (by decide),
   add_pattern_update_frame.2.2.1 1 2 5
     { curses_color := some { fg := 1, bg := 2 }, attrs := 7 }
     { fg := 1, bg := 2 } rfl rfl rfl,
   add_pattern_update_frame.2.2.2 testEnv [sample_rule] "abc" true 3 4 5 false 0 rfl⟩

end RegexColour

namespace RegexColour

/-- C9: identifiers outside the closed enumeration of nine classes get no
list from `regex_colors_get_list`, and both dispatch entry points report
failure on an unsupported identifier without touching any rule list or
sending any notification. -/
theorem unknown_class_untouched :
    (∀ (st : RegexColors) (id : ColorId), id ∉ rule_classes →
      regex_colors_get_list st id = none) ∧
    (∀ (env : Env) (st : RegexColors) (id : ColorId) (pat : String) (fg bg : Nat)
        (attrs : Int), id ∉ color_list_classes →
      regex_colors_parse_color_list env st id pat fg bg attrs =
        (false, none, st, [])) ∧
    (∀ (env : Env) (st : RegexColors) (id : ColorId) (pat : String) (fg bg : Nat)
        (attrs : Int) (matchn : Nat), id ≠ ColorId.MT_COLOR_STATUS →
      regex_colors_parse_status_list env st id pat fg bg attrs matchn =
        (-1, st, [])) := by
  refine ⟨?_, ?_, ?_⟩
  · intro st id h
    cases id <;> first | rfl | simp [rule_classes] at h
  · intro env st id pat fg bg attrs h
    cases id <;> first | rfl | simp [color_list_classes] at h
  · intro env st id pat fg bg attrs matchn h
    simp [regex_colors_parse_status_list, h]

/-- Witness for C9: the quoted class gets no list, the status identifier is
rejected by the colour-list dispatcher, and the body identifier is rejected
by the status dispatcher, all without state change. -/
theorem unknown_class_untouched_witness :
    regex_colors_get_list regex_colors_init .MT_COLOR_QUOTED = none ∧
    regex_colors_parse_color_list testEnv regex_colors_init .MT_COLOR_STATUS
        "x" 1 2 0 = (false, none, regex_colors_init, []) ∧
    regex_colors_parse_status_list testEnv regex_colors_init .MT_COLOR_BODY
        "x" 1 2 0 0 = (-1, regex_colors_init, []) :=
  ⟨unknown_class_untouched.1 regex_colors_init .MT_COLOR_QUOTED (by decide),
   unknown_class_untouched.2.1 testEnv regex_colors_init .MT_COLOR_STATUS
     "x" 1 2 0 (by decide),
   unknown_class_untouched.2.2 testEnv regex_colors_init .MT_COLOR_BODY
     "x" 1 2 0 0 (by decide)⟩

/-- C10: clearing empties all nine lists, is idempotent, leaves
`regex_colors_get_list` returning the (now empty) list rather than an
error, and the cleared list is reusable for new insertions. -/
theorem regex_colors_clear_spec :
    (∀ st : RegexColors, regex_colors_clear st = regex_colors_init) ∧
    (∀ st : RegexColors,
      regex_colors_clear (regex_colors_clear st) = regex_colors_clear st) ∧
    (∀ (st : RegexColors) (id : ColorId), id ∈ rule_classes →
      regex_colors_get_list (regex_colors_clear st) id = some []) ∧
    (∀ (env : Env) (st : RegexColors) (pat : String) (fg bg : Nat) (attrs : Int),
      env.reg_comp pat (regex_flags true pat) = true →
      regex_colors_parse_color_list env (regex_colors_clear st) .MT_COLOR_BODY
          pat fg bg attrs =
        (true, some .MUTT_CMD_SUCCESS,
          { regex_colors_init with
            BodyList := [fresh_rule env pat true fg bg attrs false 0] }, [])) := by
  refine ⟨fun st => rfl, fun st => rfl, ?_, ?_⟩
  · intro st id h
    cases id <;> first | rfl | simp [rule_classes] at h
  · intro env st pat fg bg attrs hc
    show (regex_colors_parse_color_list env regex_colors_init .MT_COLOR_BODY
      pat fg bg attrs) = _
    have hadd := add_pattern_insert_regex_ok env [] pat true fg bg attrs 0 rfl hc
    simp only [regex_colors_parse_color_list]
    rw [show regex_colors_init.BodyList = ([] : RegexColorList) from rfl, hadd]
    simp

/-- Witness for C10: clearing a populated registry empties it, and a fresh
insert on the cleared body list succeeds with one rule. -/
theorem regex_colors_clear_spec_witness :
    regex_colors_get_list
        (regex_colors_clear { regex_colors_init with BodyList := [sample_rule] })
        .MT_COLOR_BODY = some [] ∧
    regex_colors_parse_color_list testEnv
        (regex_colors_clear { regex_colors_init with BodyList := [sample_rule] })
        .MT_COLOR_BODY "foo" 1 2 0 =
      (true, some .MUTT_CMD_SUCCESS,
        { regex_colors_init with BodyList := [fresh_rule testEnv "foo" true 1 2 0 false 0] },
        []) :=
  ⟨regex_colors_clear_spec.2.2.1
     { regex_colors_init with BodyList := [sample_rule] } .MT_COLOR_BODY (by decide),
   regex_colors_clear_spec.2.2.2 testEnv
     { regex_colors_init with BodyList := [sample_rule] } "foo" 1 2 0 rfl⟩

end RegexColour
